import Mathlib

/-!
Verification of the salvo `extra` middleware: the session cookie
signing/verification protocol and per-request lifecycle from
`src/extra/src/session.rs`, and the host-rewriting helper from
`src/extra/src/force_https.rs`.

Strings are embedded as their UTF-8 byte sequences (`List Nat`, each
byte `< 256`); the HMAC-SHA256 primitive and the backing session store
are external crates, embedded as explicit function parameters.
-/

namespace Salvo

/-- `BASE64_DIGEST_LEN` from session.rs: the length of the standard
base64 encoding of a 32-byte SHA-256 digest. -/
def BASE64_DIGEST_LEN : Nat := 44

/-- The standard base64 alphabet: sextet index (< 64) to ASCII code. -/
def b64Char (n : Nat) : Nat :=
  if n < 26 then 65 + n
  else if n < 52 then 97 + (n - 26)
  else if n < 62 then 48 + (n - 52)
  else if n = 62 then 43
  else 47

/-- Inverse alphabet lookup: ASCII code to sextet index, `none` for a
byte outside the standard alphabet (including the pad byte 61, i.e. `=`). -/
def b64Index (c : Nat) : Option Nat :=
  if 65 ≤ c ∧ c ≤ 90 then some (c - 65)
  else if 97 ≤ c ∧ c ≤ 122 then some (c - 97 + 26)
  else if 48 ≤ c ∧ c ≤ 57 then some (c - 48 + 52)
  else if c = 43 then some 62
  else if c = 47 then some 63
  else none

/-- `base64::encode` (standard alphabet, with padding) on a byte list. -/
def base64Encode : List Nat → List Nat
  | [] => []
  | [a] => [b64Char (a / 4), b64Char (a % 4 * 16), 61, 61]
  | [a, b] => [b64Char (a / 4), b64Char (a % 4 * 16 + b / 16), b64Char (b % 16 * 4), 61]
  | a :: b :: c :: rest =>
    b64Char (a / 4) :: b64Char (a % 4 * 16 + b / 16) ::
      b64Char (b % 16 * 4 + c / 64) :: b64Char (c % 64) :: base64Encode rest

/-- Decode one full (non-final) base64 group of four alphabet bytes. -/
def decodeGroup4 (c1 c2 c3 c4 : Nat) : Option (List Nat) :=
  match b64Index c1, b64Index c2, b64Index c3, b64Index c4 with
  | some n1, some n2, some n3, some n4 =>
      some [n1 * 4 + n2 / 16, n2 % 16 * 16 + n3 / 4, n3 % 4 * 64 + n4]
  | _, _, _, _ => none

/-- Decode the final base64 group, handling the `=` padding forms and
rejecting non-zero discarded trailing bits (as the base64 crate does). -/
def decodeLastGroup (c1 c2 c3 c4 : Nat) : Option (List Nat) :=
  if c3 = 61 then
    if c4 = 61 then
      match b64Index c1, b64Index c2 with
      | some n1, some n2 =>
          if n2 % 16 = 0 then some [n1 * 4 + n2 / 16] else none
      | _, _ => none
    else none
  else if c4 = 61 then
    match b64Index c1, b64Index c2, b64Index c3 with
    | some n1, some n2, some n3 =>
        if n3 % 4 = 0 then some [n1 * 4 + n2 / 16, n2 % 16 * 16 + n3 / 4] else none
    | _, _, _ => none
  else decodeGroup4 c1 c2 c3 c4

/-- `base64::decode` on a byte list: groups of four bytes, padding only
in the final group; fails on any other shape or alphabet violation. -/
def base64Decode : List Nat → Option (List Nat)
  | [] => some []
  | [c1, c2, c3, c4] => decodeLastGroup c1 c2 c3 c4
  | c1 :: c2 :: c3 :: c4 :: r :: rest =>
    match decodeGroup4 c1 c2 c3 c4 with
    | some bs =>
      match base64Decode (r :: rest) with
      | some tl => some (bs ++ tl)
      | none => none
    | none => none
  | _ => none

theorem b64Index_b64Char : ∀ n < 64, b64Index (b64Char n) = some n := by decide

theorem b64Char_ne_pad : ∀ n < 64, b64Char n ≠ 61 := by decide

theorem base64Encode_length (l : List Nat) :
    (base64Encode l).length = (l.length + 2) / 3 * 4 := by
  induction l using base64Encode.induct with
  | case1 => simp [base64Encode]
  | case2 a => simp [base64Encode]
  | case3 a b => simp [base64Encode]
  | case4 a b c rest ih =>
    simp only [base64Encode, List.length_cons, ih]
    omega

theorem base64Decode_base64Encode (l : List Nat) (hl : ∀ b ∈ l, b < 256) :
    base64Decode (base64Encode l) = some l := by
  induction l using base64Encode.induct with
  | case1 => simp [base64Encode, base64Decode]
  | case2 a =>
    have ha : a < 256 := hl a (by simp)
    have h1 : a / 4 < 64 := by omega
    have h2 : a % 4 * 16 < 64 := by omega
    simp only [base64Encode, base64Decode, decodeLastGroup, if_pos rfl,
      b64Index_b64Char _ h1, b64Index_b64Char _ h2]
    have : a % 4 * 16 % 16 = 0 := by omega
    rw [if_pos this]
    have : a / 4 * 4 + a % 4 * 16 / 16 = a := by omega
    rw [this]
    simp
  | case3 a b =>
    have ha : a < 256 := hl a (by simp)
    have hb : b < 256 := hl b (by simp)
    have h1 : a / 4 < 64 := by omega
    have h2 : a % 4 * 16 + b / 16 < 64 := by omega
    have h3 : b % 16 * 4 < 64 := by omega
    simp only [base64Encode, base64Decode, decodeLastGroup,
      if_neg (b64Char_ne_pad _ h3), if_pos rfl,
      b64Index_b64Char _ h1, b64Index_b64Char _ h2, b64Index_b64Char _ h3]
    have : b % 16 * 4 % 4 = 0 := by omega
    rw [if_pos this]
    have e1 : a / 4 * 4 + (a % 4 * 16 + b / 16) / 16 = a := by omega
    have e2 : (a % 4 * 16 + b / 16) % 16 * 16 + b % 16 * 4 / 4 = b := by omega
    rw [e1, e2]
    simp
  | case4 a b c rest ih =>
    have ha : a < 256 := hl a (by simp)
    have hb : b < 256 := hl b (by simp)
    have hc : c < 256 := hl c (by simp)
    have h1 : a / 4 < 64 := by omega
    have h2 : a % 4 * 16 + b / 16 < 64 := by omega
    have h3 : b % 16 * 4 + c / 64 < 64 := by omega
    have h4 : c % 64 < 64 := by omega
    have hgroup : decodeGroup4 (b64Char (a / 4)) (b64Char (a % 4 * 16 + b / 16))
        (b64Char (b % 16 * 4 + c / 64)) (b64Char (c % 64)) = some [a, b, c] := by
      simp only [decodeGroup4, b64Index_b64Char _ h1, b64Index_b64Char _ h2,
        b64Index_b64Char _ h3, b64Index_b64Char _ h4]
      have e1 : a / 4 * 4 + (a % 4 * 16 + b / 16) / 16 = a := by omega
      have e2 : (a % 4 * 16 + b / 16) % 16 * 16 + (b % 16 * 4 + c / 64) / 4 = b := by omega
      have e3 : (b % 16 * 4 + c / 64) % 4 * 64 + c % 64 = c := by omega
      rw [e1, e2, e3]
    have hrest : ∀ x ∈ rest, x < 256 := fun x hx => hl x (by simp [hx])
    cases rest with
    | nil =>
      simp only [base64Encode, base64Decode]
      rw [show decodeLastGroup (b64Char (a / 4)) (b64Char (a % 4 * 16 + b / 16))
          (b64Char (b % 16 * 4 + c / 64)) (b64Char (c % 64)) = some [a, b, c] from ?_]
      · simp only [decodeLastGroup, if_neg (b64Char_ne_pad _ h3),
          if_neg (b64Char_ne_pad _ h4), hgroup]
    | cons r rs =>
      have ihx := ih hrest
      cases henc : base64Encode (r :: rs) with
      | nil =>
        have := base64Encode_length (r :: rs)
        rw [henc] at this
        simp at this
        omega
      | cons y ys =>
        rw [henc] at ihx
        simp only [base64Encode, henc, base64Decode, hgroup, ihx]
        rfl

/-- UTF-8 encoding of a single character (Rust `str` bytes). -/
def utf8EncodeChar (ch : Char) : List Nat :=
  let n := ch.toNat
  if n < 0x80 then [n]
  else if n < 0x800 then [0xC0 + n / 64, 0x80 + n % 64]
  else if n < 0x10000 then [0xE0 + n / 4096, 0x80 + n / 64 % 64, 0x80 + n % 64]
  else [0xF0 + n / 262144, 0x80 + n / 4096 % 64, 0x80 + n / 64 % 64, 0x80 + n % 64]

/-- UTF-8 bytes of a string, given as its characters. -/
def utf8Encode (s : List Char) : List Nat := (s.map utf8EncodeChar).flatten

/-- Rust's `str::is_char_boundary` on the byte sequence: index 0 is a
boundary; past-the-end indices are boundaries only at the exact length;
otherwise the byte must not be a UTF-8 continuation byte. -/
def is_char_boundary (s : List Nat) (i : Nat) : Bool :=
  if i = 0 then true
  else
    match s.get? i with
    | none => i == s.length
    | some b => decide (b < 0x80 ∨ 0xC0 ≤ b)

/-- The three `Error::Other` messages `verify_signature` can produce:
`tooShort` is "length of value is <= BASE64_DIGEST_LEN", `badBase64` is
"bad base64 digest", `mismatch` is "value did not verify". -/
inductive VerifyErr where
  | tooShort
  | badBase64
  | mismatch
  deriving DecidableEq

/-- Outcome of `SessionHandler::verify_signature`. `ok` and `err`
mirror `Result<String, Error>`; `panicked` records the case where
`str::split_at` is called off a character boundary and panics. -/
inductive SigResult where
  | ok (value : List Nat)
  | err (e : VerifyErr)
  | panicked
  deriving DecidableEq

/-- The `for hmac in &self.fallback_hmacs` loop of `verify_signature`:
try each fallback MAC in order, returning the value on the first match. -/
def tryFallbacks (value digest : List Nat) : List (List Nat → List Nat) → SigResult
  | [] => .err .mismatch
  | h :: rest => if h value = digest then .ok value else tryFallbacks value digest rest

/-- `SessionHandler::verify_signature`. The MACs are embedded as
functions from message bytes to digest bytes (`hmac.clone()` followed
by `update`/`verify` is keyed-MAC application plus byte comparison).
The explicit `is_char_boundary` test is `str::split_at`'s panic
condition, checked by Rust before slicing. -/
def verify_signature (hmac : List Nat → List Nat)
    (fallback_hmacs : List (List Nat → List Nat)) (cookie_value : List Nat) : SigResult :=
  if cookie_value.length < BASE64_DIGEST_LEN then
    .err .tooShort
  else if ¬ is_char_boundary cookie_value BASE64_DIGEST_LEN then
    .panicked
  else
    match base64Decode (cookie_value.take BASE64_DIGEST_LEN) with
    | none => .err .badBase64
    | some digest =>
      if hmac (cookie_value.drop BASE64_DIGEST_LEN) = digest then
        .ok (cookie_value.drop BASE64_DIGEST_LEN)
      else tryFallbacks (cookie_value.drop BASE64_DIGEST_LEN) digest fallback_hmacs

/-- `SessionHandler::sign_cookie` on the value bytes: the new cookie
value is `base64(HMAC-SHA256(value)) ++ value`. -/
def sign_cookie (hmac : List Nat → List Nat) (value : List Nat) : List Nat :=
  base64Encode (hmac value) ++ value

theorem utf8EncodeChar_head (c : Char) :
    ∃ b bs, utf8EncodeChar c = b :: bs ∧ (b < 0x80 ∨ 0xC0 ≤ b) := by
  simp only [utf8EncodeChar]
  split_ifs with h1 h2 h3
  · exact ⟨_, _, rfl, Or.inl h1⟩
  · exact ⟨_, _, rfl, Or.inr (Nat.le_add_right _ _)⟩
  · exact ⟨_, _, rfl, Or.inr (le_trans (by norm_num) (Nat.le_add_right _ _))⟩
  · exact ⟨_, _, rfl, Or.inr (le_trans (by norm_num) (Nat.le_add_right _ _))⟩

theorem is_char_boundary_after_digest (enc : List Nat) (v : List Char)
    (henc : enc.length = 44) : is_char_boundary (enc ++ utf8Encode v) 44 = true := by
  unfold is_char_boundary
  rw [if_neg (by omega)]
  have hget : (enc ++ utf8Encode v).get? 44 = (utf8Encode v)[0]? := by
    rw [List.get?_eq_getElem?, List.getElem?_append_right (by omega), henc]
  cases v with
  | nil =>
    simp only [utf8Encode, List.map_nil, List.flatten_nil] at hget ⊢
    rw [hget]
    simp [henc]
  | cons c vs =>
    obtain ⟨b, bs, hb, hrange⟩ := utf8EncodeChar_head c
    have : (utf8Encode (c :: vs))[0]? = some b := by
      simp [utf8Encode, hb]
    rw [this] at hget
    rw [hget]
    simpa using hrange

theorem tryFallbacks_ok (value digest : List Nat) (fbs : List (List Nat → List Nat))
    (h : ∃ f ∈ fbs, f value = digest) : tryFallbacks value digest fbs = .ok value := by
  induction fbs with
  | nil => simp at h
  | cons f rest ih =>
    unfold tryFallbacks
    by_cases hf : f value = digest
    · rw [if_pos hf]
    · rw [if_neg hf]
      apply ih
      rcases h with ⟨g, hg, hgd⟩
      rcases List.mem_cons.mp hg with hgf | hgr
      · exact absurd (hgf ▸ hgd) hf
      · exact ⟨g, hgr, hgd⟩

theorem tryFallbacks_err (value digest : List Nat) (fbs : List (List Nat → List Nat))
    (h : ∀ f ∈ fbs, f value ≠ digest) : tryFallbacks value digest fbs = .err .mismatch := by
  induction fbs with
  | nil => rfl
  | cons f rest ih =>
    unfold tryFallbacks
    rw [if_neg (h f (by simp))]
    exact ih fun g hg => h g (by simp [hg])

theorem tryFallbacks_ne_panicked (value digest : List Nat)
    (fbs : List (List Nat → List Nat)) : tryFallbacks value digest fbs ≠ .panicked := by
  induction fbs with
  | nil => simp [tryFallbacks]
  | cons f rest ih =>
    unfold tryFallbacks
    by_cases hf : f value = digest
    · simp [hf]
    · simpa [hf] using ih

/-- C1: for every raw value `v` and every valid key `k` (embedded as the
keyed MAC function it induces, whose digests are 32 bytes), verifying
the result of signing `v` under `k` against a key set whose primary key
is `k` (any fallbacks allowed) succeeds and returns `v`'s bytes
unchanged: the sign/verify round-trip. -/
theorem C1_sign_verify_roundtrip (hmac : List Nat → List Nat)
    (fallback_hmacs : List (List Nat → List Nat)) (v : List Char)
    (hlen : (hmac (utf8Encode v)).length = 32)
    (hbytes : ∀ b ∈ hmac (utf8Encode v), b < 256) :
    verify_signature hmac fallback_hmacs (sign_cookie hmac (utf8Encode v)) =
      .ok (utf8Encode v) := by
  have hel : (base64Encode (hmac (utf8Encode v))).length = 44 := by
    rw [base64Encode_length, hlen]
  unfold verify_signature sign_cookie BASE64_DIGEST_LEN
  rw [if_neg (by simp [hel])]
  rw [if_neg (by simp [is_char_boundary_after_digest _ _ hel])]
  have htake : (base64Encode (hmac (utf8Encode v)) ++ utf8Encode v).take 44 =
      base64Encode (hmac (utf8Encode v)) := by
    rw [← hel, List.take_left]
  have hdrop : (base64Encode (hmac (utf8Encode v)) ++ utf8Encode v).drop 44 =
      utf8Encode v := by
    rw [← hel, List.drop_left]
  simp [htake, hdrop, base64Decode_base64Encode _ hbytes]

/-- A stand-in keyed MAC used to instantiate codec theorems on concrete
inputs: a constant 32-byte digest.  Any real HMAC-SHA256 instance
satisfies the length and byte-range hypotheses the theorems state. -/
def hmac0 : List Nat → List Nat := fun _ => List.replicate 32 0

theorem C1_sign_verify_roundtrip_witness :
    ((hmac0 (utf8Encode [])).length = 32 ∧ (∀ b ∈ hmac0 (utf8Encode []), b < 256)) ∧
    verify_signature hmac0 [] (sign_cookie hmac0 (utf8Encode [])) = .ok (utf8Encode []) :=
  ⟨⟨by decide, by decide⟩, C1_sign_verify_roundtrip hmac0 [] [] (by decide) (by decide)⟩

/-- C6: every cookie value shorter than the 44-byte base64 digest
prefix is rejected with the malformed-value error (`Error::Other
("length of value is <= BASE64_DIGEST_LEN")`) before any slicing or
decoding is attempted, with no panic and no out-of-bounds read. -/
theorem C6_short_value_rejected (hmac : List Nat → List Nat)
    (fallback_hmacs : List (List Nat → List Nat)) (cookie_value : List Nat)
    (hshort : cookie_value.length < BASE64_DIGEST_LEN) :
    verify_signature hmac fallback_hmacs cookie_value = .err .tooShort := by
  unfold verify_signature
  rw [if_pos hshort]

theorem C6_short_value_rejected_witness :
    ([] : List Nat).length < BASE64_DIGEST_LEN ∧
    verify_signature hmac0 [] [] = .err .tooShort :=
  ⟨by decide, C6_short_value_rejected hmac0 [] [] (by decide)⟩

/-- C3: once the length check and base64 decode of the digest prefix
have succeeded, verification tries the primary key first (a primary
match returns the raw value immediately), otherwise returns the raw
value if any fallback key in the configured list matches, and fails
with the signature-mismatch error (`Error::Other ("value did not
verify")`) exactly when no key matches. -/
theorem C3_verify_key_order (hmac : List Nat → List Nat)
    (fallback_hmacs : List (List Nat → List Nat)) (cookie_value digest : List Nat)
    (hlen : ¬ cookie_value.length < BASE64_DIGEST_LEN)
    (hb : is_char_boundary cookie_value BASE64_DIGEST_LEN = true)
    (hdec : base64Decode (cookie_value.take BASE64_DIGEST_LEN) = some digest) :
    (hmac (cookie_value.drop BASE64_DIGEST_LEN) = digest →
      verify_signature hmac fallback_hmacs cookie_value =
        .ok (cookie_value.drop BASE64_DIGEST_LEN)) ∧
    ((∃ f ∈ fallback_hmacs, f (cookie_value.drop BASE64_DIGEST_LEN) = digest) →
      verify_signature hmac fallback_hmacs cookie_value =
        .ok (cookie_value.drop BASE64_DIGEST_LEN)) ∧
    ((hmac (cookie_value.drop BASE64_DIGEST_LEN) ≠ digest ∧
        ∀ f ∈ fallback_hmacs, f (cookie_value.drop BASE64_DIGEST_LEN) ≠ digest) →
      verify_signature hmac fallback_hmacs cookie_value = .err .mismatch) := by
  unfold verify_signature
  rw [if_neg hlen, if_neg (by simp [hb]), hdec]
  simp only []
  refine ⟨fun hp => by rw [if_pos hp], fun hf => ?_, fun ⟨hp, hf⟩ => ?_⟩
  · by_cases hp : hmac (cookie_value.drop BASE64_DIGEST_LEN) = digest
    · rw [if_pos hp]
    · rw [if_neg hp]
      exact tryFallbacks_ok _ _ _ hf
  · rw [if_neg hp]
    exact tryFallbacks_err _ _ _ hf

theorem C3_verify_key_order_witness :
    (¬ (base64Encode (List.replicate 32 0)).length < BASE64_DIGEST_LEN ∧
      is_char_boundary (base64Encode (List.replicate 32 0)) BASE64_DIGEST_LEN = true ∧
      base64Decode ((base64Encode (List.replicate 32 0)).take BASE64_DIGEST_LEN) =
        some (List.replicate 32 0)) ∧
    (hmac0 ((base64Encode (List.replicate 32 0)).drop BASE64_DIGEST_LEN) =
        List.replicate 32 0 →
      verify_signature hmac0 [] (base64Encode (List.replicate 32 0)) =
        .ok ((base64Encode (List.replicate 32 0)).drop BASE64_DIGEST_LEN)) :=
  ⟨⟨by decide, by decide, by decide⟩,
    (C3_verify_key_order hmac0 [] (base64Encode (List.replicate 32 0))
      (List.replicate 32 0) (by decide) (by decide) (by decide)).1⟩

/-- C7 (counterexample): `verify_signature` is not total.  On the bytes
of the 45-byte string made of 43 `A`s followed by `é` (UTF-8
`0xC3 0xA9`), the length check passes but byte 44 is a UTF-8
continuation byte, so `str::split_at(44)` is off a character boundary
and panics instead of returning `Ok` or `Err`. -/
theorem C7_counterexample :
    verify_signature hmac0 [] (List.replicate 43 65 ++ [195, 169]) = .panicked := by
  decide

/-- C7 (amended): `verify_signature` panics exactly when the value is
at least 44 bytes long and its 44th byte falls strictly inside a
multi-byte UTF-8 character; on every other input — in particular every
input shorter than 44 bytes and every all-ASCII input — it returns
`Ok` or `Err` and never panics. -/
theorem C7_verify_total_off_panic_boundary (hmac : List Nat → List Nat)
    (fallback_hmacs : List (List Nat → List Nat)) (cookie_value : List Nat) :
    verify_signature hmac fallback_hmacs cookie_value = .panicked ↔
      (BASE64_DIGEST_LEN ≤ cookie_value.length ∧
        is_char_boundary cookie_value BASE64_DIGEST_LEN = false) := by
  unfold verify_signature
  by_cases hlen : cookie_value.length < BASE64_DIGEST_LEN
  · rw [if_pos hlen]
    simp
    omega
  · rw [if_neg hlen]
    by_cases hb : is_char_boundary cookie_value BASE64_DIGEST_LEN = true
    · rw [if_neg (by simp [hb])]
      cases hdec : base64Decode (cookie_value.take BASE64_DIGEST_LEN) with
      | none => simp [hb]
      | some digest =>
        by_cases hp : hmac (cookie_value.drop BASE64_DIGEST_LEN) = digest
        · simp [hp, hb]
        · simp only [if_neg hp]
          simp [hb, tryFallbacks_ne_panicked]
    · rw [if_pos (by simpa using hb)]
      simp only [Bool.not_eq_true] at hb
      simp [hb]
      omega

/-- The external `async_session::Session` as seen by session.rs: an
opaque random id, key/value data, an optional absolute expiry, the
`destroyed` one-way flag and the `data_changed` flag.  Time is modelled
as a `Nat` instant. -/
structure Session where
  id : Nat
  data : List (List Nat × List Nat)
  expiry : Option Nat
  destroyed : Bool
  data_changed : Bool
  deriving DecidableEq

/-- `Session::default()` / `Session::new()`: empty data, no expiry, not
destroyed, not changed; the crate draws a fresh random id, modelled by
the explicit `freshId` argument. -/
def Session.fresh (freshId : Nat) : Session :=
  { id := freshId, data := [], expiry := none, destroyed := false, data_changed := false }

/-- `Session::validate()`: `none` when the expiry has passed, otherwise
the session itself. -/
def Session.validate (s : Session) (now : Nat) : Option Session :=
  match s.expiry with
  | some e => if e < now then none else some s
  | none => some s

/-- `Session::expire_in(ttl)`: set the expiry to `now + ttl`. -/
def Session.expire_in (s : Session) (now ttl : Nat) : Session :=
  { s with expiry := some (now + ttl) }

/-- A store-layer failure (`async_session::Error`); its payload is
irrelevant to the middleware, which only logs it. -/
inductive StoreError where
  | failed
  deriving DecidableEq

/-- The external `SessionStore` contract consumed by the middleware:
load, store (returning the value for the next cookie, or `none` for no
cookie), destroy.  Each call may fail independently. -/
structure StoreModel where
  load_session : List Nat → Except StoreError (Option Session)
  store_session : Session → Except StoreError (Option (List Nat))
  destroy_session : Session → Except StoreError Unit

/-- `SameSite` policy of the session cookie. -/
inductive SameSitePolicy where
  | strict
  | lax
  | none
  deriving DecidableEq

/-- A `cookie::Key`: the middleware only ever uses its 32-byte signing
half (`key.signing()`). -/
structure Key where
  signing : List Nat

/-- The built `SessionHandler`: configuration plus the store and the
MACs obtained from the keys at build time. -/
structure SessionHandlerM where
  store : StoreModel
  cookie_path : List Char
  cookie_name : List Char
  cookie_domain : Option (List Char)
  session_ttl : Option Nat
  save_unchanged : Bool
  same_site_policy : SameSitePolicy
  hmac : List Nat → List Nat
  fallback_hmacs : List (List Nat → List Nat)

/-- `SessionHandler::load_or_create`: load from the store when a
verified cookie value is present, swallow load errors with `.ok()`,
drop expired sessions via `validate`, and fall back to
`Session::default()` (with a fresh random id). -/
def load_or_create (store : StoreModel) (now freshId : Nat)
    (cookie_value : Option (List Nat)) : Session :=
  let session : Option Session :=
    match cookie_value with
    | some cv =>
      match store.load_session cv with
      | .ok s => s
      | .error _ => Option.none
    | Option.none => Option.none
  (session.bind (fun s => s.validate now)).getD (Session.fresh freshId)

/-- The session attached to the depot by `handle` before the chain
runs: `load_or_create` followed by `expire_in` when a ttl is
configured. -/
def begin_session (h : SessionHandlerM) (now freshId : Nat)
    (cookie_value : Option (List Nat)) : Session :=
  let s := load_or_create h.store now freshId cookie_value
  match h.session_ttl with
  | some ttl => s.expire_in now ttl
  | Option.none => s

/-- The cookie-extraction step of `handle`:
`cookie.and_then(|c| self.verify_signature(c.value()).ok())`.
Outer `none` means `verify_signature` panicked (the panic propagates);
otherwise the inner option is the verified cookie value, with both a
missing cookie and a failed verification collapsing to `none`. -/
def verified_cookie_value (h : SessionHandlerM) (cookie : Option (List Nat)) :
    Option (Option (List Nat)) :=
  match cookie with
  | Option.none => some Option.none
  | some c =>
    match verify_signature h.hmac h.fallback_hmacs c with
    | .ok v => some (some v)
    | .err _ => some Option.none
    | .panicked => Option.none

/-- The session visible to the handler chain, `none` when verification
panicked first. -/
def attached_session (h : SessionHandlerM) (now freshId : Nat)
    (cookie : Option (List Nat)) : Option Session :=
  (verified_cookie_value h cookie).map (begin_session h now freshId)

/-- Observable effects of one `handle` call: whether it panicked, the
session attached to the depot, the argument of `load_session` if it was
called, whether `destroy_session` / `store_session` were called, and
the cookie operations applied to the response (`remove_cookie`, and the
`Secure` flag and final signed value of the cookie passed to
`add_cookie`). -/
structure Effects where
  panicked : Bool
  attached : Option Session
  load_called : Option (List Nat)
  destroy_called : Bool
  store_called : Bool
  removed_cookie : Bool
  added_cookie : Option (Bool × List Nat)
  deriving DecidableEq

/-- The response half of `handle`, given the verified cookie value:
run the chain, honour `ctrl.is_ceased()`, take the session back from
the depot (`expect` panics when the chain removed it), then destroy /
store / skip and apply the cookie operations. -/
def handle_after_verify (h : SessionHandlerM) (now freshId : Nat) (secure : Bool)
    (cookie_value : Option (List Nat)) (chain : Session → Option Session)
    (ceased : Bool) : Effects :=
  let session1 := begin_session h now freshId cookie_value
  if ceased then
    { panicked := false, attached := some session1, load_called := cookie_value,
      destroy_called := false, store_called := false,
      removed_cookie := false, added_cookie := Option.none }
  else
    match chain session1 with
    | Option.none =>
      { panicked := true, attached := some session1, load_called := cookie_value,
        destroy_called := false, store_called := false,
        removed_cookie := false, added_cookie := Option.none }
    | some session =>
      if session.destroyed then
        { panicked := false, attached := some session1, load_called := cookie_value,
          destroy_called := true, store_called := false,
          removed_cookie := true, added_cookie := Option.none }
      else if h.save_unchanged || session.data_changed then
        match h.store.store_session session with
        | .ok (some cv) =>
          { panicked := false, attached := some session1, load_called := cookie_value,
            destroy_called := false, store_called := true,
            removed_cookie := false, added_cookie := some (secure, sign_cookie h.hmac cv) }
        | .ok Option.none =>
          { panicked := false, attached := some session1, load_called := cookie_value,
            destroy_called := false, store_called := true,
            removed_cookie := false, added_cookie := Option.none }
        | .error _ =>
          { panicked := false, attached := some session1, load_called := cookie_value,
            destroy_called := false, store_called := true,
            removed_cookie := false, added_cookie := Option.none }
      else
        { panicked := false, attached := some session1, load_called := cookie_value,
          destroy_called := false, store_called := false,
          removed_cookie := false, added_cookie := Option.none }

/-- `<SessionHandler as Handler>::handle` for one request: `cookie` is
the request's cookie value under the configured name (its bytes),
`chain` is the downstream handler chain acting on the depot session,
`ceased` is `ctrl.is_ceased()` after the chain, `secure` is whether the
request scheme is HTTPS. -/
def handle (h : SessionHandlerM) (now freshId : Nat) (secure : Bool)
    (cookie : Option (List Nat)) (chain : Session → Option Session)
    (ceased : Bool) : Effects :=
  match verified_cookie_value h cookie with
  | Option.none =>
    { panicked := true, attached := Option.none, load_called := Option.none,
      destroy_called := false, store_called := false,
      removed_cookie := false, added_cookie := Option.none }
  | some cv => handle_after_verify h now freshId secure cv chain ceased

/-- A concrete always-empty, always-succeeding store, used to
instantiate lifecycle theorems on concrete inputs. -/
def store0 : StoreModel :=
  { load_session := fun _ => .ok Option.none
  , store_session := fun _ => .ok Option.none
  , destroy_session := fun _ => .ok () }

/-- A concrete handler with the builder's default configuration,
used to instantiate lifecycle theorems on concrete inputs. -/
def handler0 : SessionHandlerM :=
  { store := store0, cookie_path := ['/'], cookie_name := "salvo.sid".toList
  , cookie_domain := Option.none, session_ttl := some 86400, save_unchanged := true
  , same_site_policy := .lax, hmac := hmac0, fallback_hmacs := [] }

/-- C2: a request cookie that fails signature verification (too short,
bad base64 or MAC mismatch, i.e. `verify_signature` returns `Err`) is
handled exactly like a request with no cookie at all — the whole
observable behaviour of `handle` is equal in the two cases, no error
reaches the chain or the client — and the session attached to the
request context is a fresh empty one: new (freshly drawn) id, empty
data, not destroyed, not marked changed. -/
theorem C2_bad_signature_like_absent (h : SessionHandlerM) (now freshId : Nat)
    (secure : Bool) (chain : Session → Option Session) (ceased : Bool)
    (c : List Nat) (e : VerifyErr)
    (hfail : verify_signature h.hmac h.fallback_hmacs c = .err e) :
    handle h now freshId secure (some c) chain ceased =
      handle h now freshId secure Option.none chain ceased ∧
    attached_session h now freshId (some c) =
      some (begin_session h now freshId Option.none) ∧
    (begin_session h now freshId Option.none).id = freshId ∧
    (begin_session h now freshId Option.none).data = [] ∧
    (begin_session h now freshId Option.none).destroyed = false ∧
    (begin_session h now freshId Option.none).data_changed = false := by
  have hb : begin_session h now freshId Option.none =
      { id := freshId, data := [], destroyed := false, data_changed := false,
        expiry := h.session_ttl.map (fun ttl => now + ttl) } := by
    unfold begin_session load_or_create
    cases h.session_ttl <;> rfl
  refine ⟨?_, ?_, ?_, ?_, ?_, ?_⟩
  · simp [handle, verified_cookie_value, hfail]
  · simp [attached_session, verified_cookie_value, hfail]
  all_goals rw [hb]

theorem C2_bad_signature_like_absent_witness :
    verify_signature handler0.hmac handler0.fallback_hmacs [] = .err .tooShort ∧
    (handle handler0 0 7 false (some []) (fun s => some s) false =
        handle handler0 0 7 false Option.none (fun s => some s) false ∧
      attached_session handler0 0 7 (some []) =
        some (begin_session handler0 0 7 Option.none) ∧
      (begin_session handler0 0 7 Option.none).id = 7 ∧
      (begin_session handler0 0 7 Option.none).data = [] ∧
      (begin_session handler0 0 7 Option.none).destroyed = false ∧
      (begin_session handler0 0 7 Option.none).data_changed = false) :=
  ⟨rfl, C2_bad_signature_like_absent handler0 0 7 false (fun s => some s) false [] .tooShort rfl⟩

theorem attached_session_elim (h : SessionHandlerM) (now freshId : Nat)
    (cookie : Option (List Nat)) (s0 : Session)
    (hatt : attached_session h now freshId cookie = some s0) :
    ∃ cv, verified_cookie_value h cookie = some cv ∧
      begin_session h now freshId cv = s0 := by
  unfold attached_session at hatt
  cases hv : verified_cookie_value h cookie with
  | none => rw [hv] at hatt; simp at hatt
  | some cv =>
    rw [hv] at hatt
    simp at hatt
    exact ⟨cv, rfl, hatt⟩

/-- C4: at response time the `destroyed` flag takes precedence over
every persistence decision.  Whenever the chain hands back a session
marked destroyed (its data may well have been mutated too — no
assumption on `data_changed`), the store's destroy operation is called,
its store operation is not, and the client cookie is removed; since the
store is universally quantified and the conclusion does not depend on
it, this holds whether the destroy call succeeds or fails. -/
theorem C4_destroyed_takes_precedence (h : SessionHandlerM) (now freshId : Nat)
    (secure : Bool) (cookie : Option (List Nat)) (chain : Session → Option Session)
    (ceased : Bool) (s0 s : Session)
    (hatt : attached_session h now freshId cookie = some s0)
    (hch : chain s0 = some s)
    (hnc : ceased = false)
    (hd : s.destroyed = true) :
    (handle h now freshId secure cookie chain ceased).destroy_called = true ∧
    (handle h now freshId secure cookie chain ceased).store_called = false ∧
    (handle h now freshId secure cookie chain ceased).removed_cookie = true ∧
    (handle h now freshId secure cookie chain ceased).added_cookie = Option.none ∧
    (handle h now freshId secure cookie chain ceased).panicked = false := by
  obtain ⟨cv, hv, hbeg⟩ := attached_session_elim h now freshId cookie s0 hatt
  simp [handle, hv, handle_after_verify, hnc, hbeg, hch, hd]

theorem C4_destroyed_takes_precedence_witness :
    attached_session handler0 0 7 Option.none =
      some (begin_session handler0 0 7 Option.none) ∧
    (fun _ : Session =>
        some (Session.mk 7 [([1], [2])] (some 86400) true true))
      (begin_session handler0 0 7 Option.none) =
      some (Session.mk 7 [([1], [2])] (some 86400) true true) ∧
    (false = false) ∧
    (Session.mk 7 [([1], [2])] (some 86400) true true).destroyed = true ∧
    ((handle handler0 0 7 false Option.none
        (fun _ => some (Session.mk 7 [([1], [2])] (some 86400) true true))
        false).destroy_called = true ∧
      (handle handler0 0 7 false Option.none
        (fun _ => some (Session.mk 7 [([1], [2])] (some 86400) true true))
        false).store_called = false ∧
      (handle handler0 0 7 false Option.none
        (fun _ => some (Session.mk 7 [([1], [2])] (some 86400) true true))
        false).removed_cookie = true ∧
      (handle handler0 0 7 false Option.none
        (fun _ => some (Session.mk 7 [([1], [2])] (some 86400) true true))
        false).added_cookie = Option.none ∧
      (handle handler0 0 7 false Option.none
        (fun _ => some (Session.mk 7 [([1], [2])] (some 86400) true true))
        false).panicked = false) :=
  ⟨rfl, rfl, rfl, rfl,
    C4_destroyed_takes_precedence handler0 0 7 false Option.none
      (fun _ => some (Session.mk 7 [([1], [2])] (some 86400) true true))
      false (begin_session handler0 0 7 Option.none)
      (Session.mk 7 [([1], [2])] (some 86400) true true) rfl rfl rfl rfl⟩

/-- C5: at response time, for a session that is not destroyed and a
chain that was not cancelled, `store_session` is called if and only if
`save_unchanged` is configured true or the session's data changed; and
when neither holds, no store call is made and no cookie is added to or
removed from the response. -/
theorem C5_store_iff_save_unchanged_or_dirty (h : SessionHandlerM)
    (now freshId : Nat) (secure : Bool) (cookie : Option (List Nat))
    (chain : Session → Option Session) (ceased : Bool) (s0 s : Session)
    (hatt : attached_session h now freshId cookie = some s0)
    (hch : chain s0 = some s)
    (hnc : ceased = false)
    (hnd : s.destroyed = false) :
    ((handle h now freshId secure cookie chain ceased).store_called = true ↔
      (h.save_unchanged = true ∨ s.data_changed = true)) ∧
    ((h.save_unchanged = false ∧ s.data_changed = false) →
      (handle h now freshId secure cookie chain ceased).store_called = false ∧
      (handle h now freshId secure cookie chain ceased).added_cookie = Option.none ∧
      (handle h now freshId secure cookie chain ceased).removed_cookie = false) := by
  obtain ⟨cv, hv, hbeg⟩ := attached_session_elim h now freshId cookie s0 hatt
  by_cases hsave : h.save_unchanged = true ∨ s.data_changed = true
  · have hcond : (h.save_unchanged || s.data_changed) = true := by
      rcases hsave with hs | hs <;> simp [hs]
    constructor
    · cases hst : h.store.store_session s with
      | ok ov =>
        cases ov <;>
          simp [handle, hv, handle_after_verify, hnc, hbeg, hch, hnd, hcond, hst, hsave]
      | error er =>
        simp [handle, hv, handle_after_verify, hnc, hbeg, hch, hnd, hcond, hst, hsave]
    · rintro ⟨hs1, hs2⟩
      rcases hsave with hs | hs
      · exact absurd hs (by simp [hs1])
      · exact absurd hs (by simp [hs2])
  · push_neg at hsave
    have hcond : (h.save_unchanged || s.data_changed) = false := by
      rcases hsave with ⟨hs1, hs2⟩
      simp [Bool.not_eq_true] at hs1 hs2
      simp [hs1, hs2]
    rcases hsave with ⟨hs1, hs2⟩
    simp [Bool.not_eq_true] at hs1 hs2
    constructor
    · simp [handle, hv, handle_after_verify, hnc, hbeg, hch, hnd, hcond, hs1, hs2]
    · intro _
      simp [handle, hv, handle_after_verify, hnc, hbeg, hch, hnd, hcond]

theorem C5_store_iff_save_unchanged_or_dirty_witness :
    attached_session handler0 0 7 Option.none =
      some (begin_session handler0 0 7 Option.none) ∧
    ((handle handler0 0 7 false Option.none
        (fun s => some s) false).store_called = true ↔
      (handler0.save_unchanged = true ∨
        (begin_session handler0 0 7 Option.none).data_changed = true)) :=
  ⟨rfl,
    (C5_store_iff_save_unchanged_or_dirty handler0 0 7 false Option.none
      (fun s => some s) false (begin_session handler0 0 7 Option.none)
      (begin_session handler0 0 7 Option.none) rfl rfl rfl rfl).1⟩

/-- C8: store-layer failures never abort a request.  A failing
`load_session` makes `load_or_create` fall back to a fresh session
exactly as if the session were not found, and a failing `store_session`
at response time leaves the response's cookies untouched (nothing
added, nothing removed) while the request completes without panicking. -/
theorem C8_store_failures_nonfatal (h : SessionHandlerM) (now freshId : Nat)
    (secure : Bool) (cookie : Option (List Nat)) (chain : Session → Option Session)
    (ceased : Bool) (cv : List Nat) (s0 s : Session)
    (hload : h.store.load_session cv = .error .failed)
    (hstore : h.store.store_session s = .error .failed)
    (hatt : attached_session h now freshId cookie = some s0)
    (hch : chain s0 = some s)
    (hnd : s.destroyed = false)
    (hnc : ceased = false) :
    load_or_create h.store now freshId (some cv) = Session.fresh freshId ∧
    (handle h now freshId secure cookie chain ceased).added_cookie = Option.none ∧
    (handle h now freshId secure cookie chain ceased).removed_cookie = false ∧
    (handle h now freshId secure cookie chain ceased).panicked = false := by
  obtain ⟨cv', hv, hbeg⟩ := attached_session_elim h now freshId cookie s0 hatt
  refine ⟨by simp [load_or_create, hload], ?_, ?_, ?_⟩ <;>
    cases hcond : (h.save_unchanged || s.data_changed) <;>
      simp [handle, hv, handle_after_verify, hnc, hbeg, hch, hnd, hcond, hstore]

/-- A store that fails every operation, used to instantiate the
store-failure theorem on concrete inputs. -/
def storeFail : StoreModel :=
  { load_session := fun _ => .error .failed
  , store_session := fun _ => .error .failed
  , destroy_session := fun _ => .error .failed }

/-- `handler0` over the always-failing store. -/
def handlerFail : SessionHandlerM := { handler0 with store := storeFail }

theorem C8_store_failures_nonfatal_witness :
    (handlerFail.store.load_session [9] = .error .failed ∧
      handlerFail.store.store_session (begin_session handlerFail 0 7 Option.none) =
        .error .failed ∧
      attached_session handlerFail 0 7 Option.none =
        some (begin_session handlerFail 0 7 Option.none)) ∧
    (load_or_create handlerFail.store 0 7 (some [9]) = Session.fresh 7 ∧
      (handle handlerFail 0 7 false Option.none
        (fun s => some s) false).added_cookie = Option.none ∧
      (handle handlerFail 0 7 false Option.none
        (fun s => some s) false).removed_cookie = false ∧
      (handle handlerFail 0 7 false Option.none
        (fun s => some s) false).panicked = false) :=
  ⟨⟨rfl, rfl, rfl⟩,
    C8_store_failures_nonfatal handlerFail 0 7 false Option.none
      (fun s => some s) false [9] (begin_session handlerFail 0 7 Option.none)
      (begin_session handlerFail 0 7 Option.none) rfl rfl rfl rfl rfl rfl⟩

/-- `HandlerBuilder`: the configuration accumulated before `build`. -/
structure HandlerBuilder where
  store : StoreModel
  cookie_path : List Char
  cookie_name : List Char
  cookie_domain : Option (List Char)
  session_ttl : Option Nat
  save_unchanged : Bool
  same_site_policy : SameSitePolicy
  key : Key
  fallback_keys : List Key

/-- `HandlerBuilder::new(store, secret)`: the default configuration
(path `/`, name `salvo.sid`, no domain, SameSite Lax, one-day ttl,
`save_unchanged` on, no fallback keys).  The secret has already been
turned into a `cookie::Key` by the external `Key::from`. -/
def HandlerBuilder.new (store : StoreModel) (key : Key) : HandlerBuilder :=
  { store := store, save_unchanged := true, cookie_path := ['/']
  , cookie_name := "salvo.sid".toList, cookie_domain := Option.none
  , same_site_policy := .lax, session_ttl := some 86400
  , key := key, fallback_keys := [] }

/-- `Error::Other("invalid key length")`, the only error `build` maps
the MAC-construction failures to. -/
inductive BuildError where
  | invalidKeyLength
  deriving DecidableEq

/-- The `fallback_keys.iter().map(new_from_slice).collect::<Result<Vec<_>, _>>()`
step of `build`: all fallback MACs, or `none` at the first failure. -/
def collectMacs (newMac : List Nat → Option (List Nat → List Nat)) :
    List Key → Option (List (List Nat → List Nat))
  | [] => some []
  | k :: ks =>
    match newMac k.signing with
    | some m =>
      match collectMacs newMac ks with
      | some ms => some (m :: ms)
      | Option.none => Option.none
    | Option.none => Option.none

/-- `HandlerBuilder::build`.  `newMac` is the external fallible
`Hmac::<Sha256>::new_from_slice`, turning key bytes into a keyed MAC;
conversion failure of the primary or of any fallback key yields
`Err(Error::Other("invalid key length"))` and no handler. -/
def HandlerBuilder.build (b : HandlerBuilder)
    (newMac : List Nat → Option (List Nat → List Nat)) :
    Except BuildError SessionHandlerM :=
  match newMac b.key.signing with
  | Option.none => .error .invalidKeyLength
  | some hmac =>
    match collectMacs newMac b.fallback_keys with
    | Option.none => .error .invalidKeyLength
    | some fallback_hmacs =>
      .ok { store := b.store, cookie_path := b.cookie_path
          , cookie_name := b.cookie_name, cookie_domain := b.cookie_domain
          , session_ttl := b.session_ttl, save_unchanged := b.save_unchanged
          , same_site_policy := b.same_site_policy
          , hmac := hmac, fallback_hmacs := fallback_hmacs }

theorem collectMacs_none (newMac : List Nat → Option (List Nat → List Nat))
    (ks : List Key) (hbad : ∃ k ∈ ks, newMac k.signing = Option.none) :
    collectMacs newMac ks = Option.none := by
  induction ks with
  | nil => simp at hbad
  | cons k rest ih =>
    obtain ⟨g, hg, hgn⟩ := hbad
    rcases List.mem_cons.mp hg with hgk | hgr
    · subst hgk
      simp [collectMacs, hgn]
    · unfold collectMacs
      cases newMac k.signing with
      | none => rfl
      | some m => rw [ih ⟨g, hgr, hgn⟩]

/-- C9: if the primary signing key or any fallback key cannot be
converted into a valid fixed-length MAC key (the external
`new_from_slice` fails on its 32 signing bytes), `build` returns the
construction-time error `Error::Other("invalid key length")` — a
returned `Err`, not a runtime failure — and no `SessionHandler` is
constructed. -/
theorem C9_invalid_key_fails_build (b : HandlerBuilder)
    (newMac : List Nat → Option (List Nat → List Nat))
    (hbad : newMac b.key.signing = Option.none ∨
      ∃ k ∈ b.fallback_keys, newMac k.signing = Option.none) :
    b.build newMac = .error .invalidKeyLength := by
  unfold HandlerBuilder.build
  rcases hbad with hp | hf
  · rw [hp]
  · cases hprim : newMac b.key.signing with
    | none => rfl
    | some m => rw [collectMacs_none newMac b.fallback_keys hf]

/-- A stand-in for `Hmac::<Sha256>::new_from_slice` that accepts only
32-byte keys, used to instantiate the build theorem concretely. -/
def newMac0 : List Nat → Option (List Nat → List Nat) :=
  fun l => if l.length = 32 then some hmac0 else Option.none

theorem C9_invalid_key_fails_build_witness :
    newMac0 (Key.mk [1, 2, 3]).signing = Option.none ∧
    (HandlerBuilder.new store0 (Key.mk [1, 2, 3])).build newMac0 =
      .error .invalidKeyLength :=
  ⟨rfl, C9_invalid_key_fails_build (HandlerBuilder.new store0 (Key.mk [1, 2, 3]))
    newMac0 (Or.inl rfl)⟩

/-- Rust's `str::split_once(sep)`: split at the first occurrence of
`sep`, returning the parts before and after it, or `none` when `sep`
does not occur. -/
def split_once (s : List Char) (sep : Char) : Option (List Char × List Char) :=
  match s with
  | [] => Option.none
  | c :: rest =>
    if c = sep then some ([], rest)
    else
      match split_once rest sep with
      | some (a, b) => some (c :: a, b)
      | Option.none => Option.none

/-- Decimal digits of a positive number, most significant first. -/
def decDigits : Nat → List Char
  | 0 => []
  | n + 1 => decDigits ((n + 1) / 10) ++ [Char.ofNat (48 + (n + 1) % 10)]
decreasing_by exact Nat.div_lt_self (Nat.succ_pos n) (by norm_num)

/-- `format!("{}", port)` for a `u16` port. -/
def portChars (n : Nat) : List Char :=
  if n = 0 then ['0'] else decDigits n

/-- `redirect_host` from force_https.rs: with a port override, replace
everything after the first `:` (or append `:port` when there is none);
with no override, return the host unchanged. -/
def redirect_host (host : List Char) (https_port : Option Nat) : List Char :=
  match split_once host ':', https_port with
  | some (h, _), some port => h ++ ':' :: portChars port
  | Option.none, some port => host ++ ':' :: portChars port
  | _, Option.none => host

theorem split_once_of_not_mem (s : List Char) (sep : Char) (h : sep ∉ s) :
    split_once s sep = Option.none := by
  induction s with
  | nil => rfl
  | cons c rest ih =>
    unfold split_once
    rw [if_neg (by rintro rfl; exact h (by simp))]
    rw [ih (fun hm => h (by simp [hm]))]

theorem split_once_append (hd tl : List Char) (sep : Char) (h : sep ∉ hd) :
    split_once (hd ++ sep :: tl) sep = some (hd, tl) := by
  induction hd with
  | nil => simp [split_once]
  | cons c rest ih =>
    rw [List.cons_append]
    unfold split_once
    rw [if_neg (by rintro rfl; exact h (by simp))]
    rw [ih (fun hm => h (by simp [hm]))]

/-- C10: the redirect helper's host rewriting.  For a host written as
`h:p` (first colon separating the colon-free host part from the port
part), a configured port override replaces the port; a host with no
colon gets the override appended; and with no override every host —
with or without a port — is returned unchanged. -/
theorem C10_redirect_host (host hd tl anyHost : List Char) (port : Nat)
    (hhost : (':' : Char) ∉ host) (hhd : (':' : Char) ∉ hd) :
    redirect_host host (some port) = host ++ ':' :: portChars port ∧
    redirect_host (hd ++ ':' :: tl) (some port) = hd ++ ':' :: portChars port ∧
    redirect_host anyHost Option.none = anyHost := by
  refine ⟨?_, ?_, ?_⟩
  · unfold redirect_host
    rw [split_once_of_not_mem host ':' hhost]
  · unfold redirect_host
    rw [split_once_append hd tl ':' hhd]
  · unfold redirect_host
    cases split_once anyHost ':' with
    | none => rfl
    | some p => rcases p with ⟨a, b⟩; rfl

theorem C10_redirect_host_witness :
    ((':' : Char) ∉ "example.com".toList ∧ (':' : Char) ∉ "example.com".toList) ∧
    (redirect_host "example.com".toList (some 1234) =
        "example.com".toList ++ ':' :: portChars 1234 ∧
      redirect_host ("example.com".toList ++ ':' :: "5678".toList) (some 1234) =
        "example.com".toList ++ ':' :: portChars 1234 ∧
      redirect_host ("example.com".toList ++ ':' :: "1234".toList) Option.none =
        "example.com".toList ++ ':' :: "1234".toList) :=
  ⟨⟨by decide, by decide⟩,
    C10_redirect_host "example.com".toList "example.com".toList "5678".toList
      ("example.com".toList ++ ':' :: "1234".toList) 1234 (by decide) (by decide)⟩

end Salvo
